import Mathlib

/-!
Verification development for the `ai-oracle` repository.

The repository is an astrological computation service (the "Abu engine",
a Python backend whose implementation lives outside the checked-in tree),
together with its documented JSON contracts (`docs/`),
TypeScript contract types (`next_app/types`, embedded from `unnamed/part_002`
and `unnamed/part_003`), the frontend client wrapper
(`next_app/clients/abu.ts`) and the chart-wheel renderer
(`next_app/components/ChartWheel.tsx`).

This file gives a shallow embedding of the data model and of the
operations the verified claims are about.  Pure numeric code is embedded
over `ℚ`; JSON contract shapes are embedded as Lean structures together
with their field-name lists; fallible operations return `Except`.
Definitions for engine modules that are not present in the tree are
modelled from the specification and are marked as such in their doc
comments.
-/

namespace AiOracle

/-! ## Circular (mod-360) arithmetic

All longitudes are ecliptic degrees, semantically circular modulo 360.
`normalize360` is the normalization into `[0, 360)` that the spec requires
of every consumer before sign decomposition; `circDist` is the
shortest-arc angular distance (`≤ 180°`) used for orbs, aspects and the
solar conditions. -/

/-- Normalize a longitude into `[0, 360)`. -/
def normalize360 (x : ℚ) : ℚ := x - 360 * ⌊x / 360⌋

/-- Shortest-arc circular distance between two longitudes (always in
`[0, 180]`). -/
def circDist (a b : ℚ) : ℚ :=
  min (normalize360 (a - b)) (360 - normalize360 (a - b))

theorem normalize360_nonneg (x : ℚ) : 0 ≤ normalize360 x := by
  have h := Int.floor_le (x / 360)
  have h360 : (0:ℚ) < 360 := by norm_num
  unfold normalize360
  have : (⌊x / 360⌋ : ℚ) * 360 ≤ (x / 360) * 360 := by
    exact mul_le_mul_of_nonneg_right h (by norm_num)
  have hx : (x / 360) * 360 = x := by field_simp
  nlinarith [this]

theorem normalize360_lt (x : ℚ) : normalize360 x < 360 := by
  have h := Int.lt_floor_add_one (x / 360)
  unfold normalize360
  have : (x / 360) * 360 < ((⌊x / 360⌋ : ℚ) + 1) * 360 := by
    exact mul_lt_mul_of_pos_right h (by norm_num)
  have hx : (x / 360) * 360 = x := by field_simp
  nlinarith [this]

theorem normalize360_add_360 (x : ℚ) :
    normalize360 (x + 360) = normalize360 x := by
  unfold normalize360
  have : (x + 360) / 360 = x / 360 + 1 := by ring
  rw [this, Int.floor_add_one]
  push_cast
  ring

/-! ## Zodiac table and position resolver

`zodiacSigns` is embedded from the `ZODIAC_SIGNS` constant of
`next_app/components/ChartWheel.tsx` (names, in table order, the i-th
entry occupying the arc `[30·i, 30·(i+1))`). -/

/-- The 12 zodiac sign names, in the fixed order of the
`ZODIAC_SIGNS` table of `ChartWheel.tsx`, starting at Aries. -/
def zodiacSigns : List String :=
  ["Aries", "Taurus", "Gemini", "Cancer", "Leo", "Virgo",
   "Libra", "Scorpio", "Sagittarius", "Capricorn", "Aquarius", "Pisces"]

/-- Result of resolving a longitude into a zodiacal position. -/
structure Resolved where
  sign : String
  degree_in_sign : ℚ
  deriving DecidableEq, Repr

/-- Index (0-based) of the 30° band containing the normalized longitude. -/
def signIndex (L : ℚ) : ℕ := (⌊normalize360 L / 30⌋).toNat

/-- Modelled from the spec: the Position & Sign Resolver
(`resolve(longitude) -> { sign, degree_in_sign }`, spec §4.2); the engine
module holding it (`abu_engine/core/houses_swiss.py`, "Conversión
longitud → signo/grado") is not in the checked-in tree.  The sign table
itself is the `ZODIAC_SIGNS` constant from `ChartWheel.tsx`. -/
def resolve (L : ℚ) : Resolved :=
  { sign := zodiacSigns.getD (signIndex L) ""
    degree_in_sign := normalize360 L - 30 * (signIndex L : ℚ) }

theorem signIndex_lt (L : ℚ) : signIndex L < 12 := by
  unfold signIndex
  have h1 : normalize360 L < 360 := normalize360_lt L
  have h2 : (⌊normalize360 L / 30⌋ : ℚ) ≤ normalize360 L / 30 :=
    Int.floor_le _
  have : (⌊normalize360 L / 30⌋ : ℚ) < 12 := by nlinarith
  have hZ : ⌊normalize360 L / 30⌋ < 12 := by exact_mod_cast this
  omega

theorem signIndex_cast (L : ℚ) :
    ((signIndex L : ℕ) : ℚ) = (⌊normalize360 L / 30⌋ : ℚ) := by
  unfold signIndex
  have hn : 0 ≤ normalize360 L := normalize360_nonneg L
  have h0 : 0 ≤ normalize360 L / 30 := by positivity
  have : 0 ≤ ⌊normalize360 L / 30⌋ := Int.floor_nonneg.mpr h0
  exact_mod_cast Int.toNat_of_nonneg this

theorem signIndex_band (L : ℚ) :
    30 * (signIndex L : ℚ) ≤ normalize360 L ∧
      normalize360 L < 30 * ((signIndex L : ℚ) + 1) := by
  have hfl := Int.floor_le (normalize360 L / 30)
  have hfu := Int.lt_floor_add_one (normalize360 L / 30)
  have hc := signIndex_cast L
  constructor
  · rw [hc]; nlinarith
  · rw [hc]; nlinarith

/-- C5: resolving `L` and `L + 360` yields the same sign; the resolved
`degree_in_sign` always lies in `[0, 30)`; the zodiac is a fixed table of
exactly 12 signs, in fixed order starting at Aries, each spanning exactly
30 degrees; the sign of `L` is the entry of the table whose 30-degree band
contains `L` normalized into `[0, 360)`. -/
theorem resolve_circular_consistency (L : ℚ) :
    (resolve (L + 360)).sign = (resolve L).sign ∧
    0 ≤ (resolve L).degree_in_sign ∧ (resolve L).degree_in_sign < 30 ∧
    zodiacSigns.length = 12 ∧
    zodiacSigns.headD "" = "Aries" ∧
    (resolve L).sign = zodiacSigns.getD (signIndex L) "" ∧
    (30 * (signIndex L : ℚ) ≤ normalize360 L ∧
      normalize360 L < 30 * ((signIndex L : ℚ) + 1)) := by
  have hband := signIndex_band L
  have hidx : signIndex (L + 360) = signIndex L := by
    unfold signIndex; rw [normalize360_add_360]
  refine ⟨?_, ?_, ?_, by decide, by decide, rfl, hband⟩
  · show zodiacSigns.getD (signIndex (L + 360)) "" = zodiacSigns.getD (signIndex L) ""
    rw [hidx]
  · show 0 ≤ normalize360 L - 30 * (signIndex L : ℚ)
    linarith [hband.1]
  · show normalize360 L - 30 * (signIndex L : ℚ) < 30
    linarith [hband.2]

/-! ## Essential dignities

The `Dignity` record shape is embedded from the `Dignity` interface of
the shared contract types (`unnamed/part_002`): five boolean category
flags plus a numeric score.  The frontend (`getDignityLabel`,
`unnamed/part_001`) reads the flags in the priority order
domicile, exaltation, detriment, fall, peregrine. -/

/-- The ten bodies the chart reports (Sun..Pluto). -/
inductive Planet where
  | sun | moon | mercury | venus | mars | jupiter | saturn
  | uranus | neptune | pluto
  deriving DecidableEq, Fintype, Repr

/-- The twelve zodiac signs, in table order. -/
inductive Sign where
  | aries | taurus | gemini | cancer | leo | virgo
  | libra | scorpio | sagittarius | capricorn | aquarius | pisces
  deriving DecidableEq, Fintype, Repr

/-- The sign diametrically opposite a given sign (180° away). -/
def Sign.opposite : Sign → Sign
  | .aries => .libra
  | .taurus => .scorpio
  | .gemini => .sagittarius
  | .cancer => .capricorn
  | .leo => .aquarius
  | .virgo => .pisces
  | .libra => .aries
  | .scorpio => .taurus
  | .sagittarius => .gemini
  | .capricorn => .cancer
  | .aquarius => .leo
  | .pisces => .virgo

/-- Rulership table selector: traditional excludes outer-planet
domiciles, attributing their signs to classical rulers (spec §4.3). -/
inductive RulershipTable where
  | traditional | modern
  deriving DecidableEq, Fintype, Repr

/-- Modelled from the spec: the classical domicile-ruler table
("static classical rulership tables", spec §3/§4.3); the engine module
holding it (`abu_engine/core/dignities.py`) is not in the checked-in
tree.  Each sign has exactly one domicile ruler per table. -/
def domicileRuler (t : RulershipTable) : Sign → Planet
  | .aries => .mars
  | .taurus => .venus
  | .gemini => .mercury
  | .cancer => .moon
  | .leo => .sun
  | .virgo => .mercury
  | .libra => .venus
  | .scorpio => match t with | .traditional => .mars | .modern => .pluto
  | .sagittarius => .jupiter
  | .capricorn => .saturn
  | .aquarius => match t with | .traditional => .saturn | .modern => .uranus
  | .pisces => match t with | .traditional => .jupiter | .modern => .neptune

/-- Modelled from the spec: the classical exaltation table (spec §3);
signs without a classical exalted planet carry `none`. -/
def exaltedPlanet : Sign → Option Planet
  | .aries => some .sun
  | .taurus => some .moon
  | .virgo => some .mercury
  | .pisces => some .venus
  | .capricorn => some .mars
  | .cancer => some .jupiter
  | .libra => some .saturn
  | _ => none

/-- The `Dignity` record of the shared contract types
(`unnamed/part_002`): five boolean flags plus a score. -/
structure Dignity where
  domicile : Bool
  exaltation : Bool
  detriment : Bool
  fall : Bool
  peregrine : Bool
  score : Int
  deriving DecidableEq, Repr

/-- Modelled from the spec: the Dignities Evaluator
(`dignity_of(planet, sign) -> {category, score}`, spec §4.3;
`get_planet_dignity` of `abu_engine/core/dignities.py`, which is not in
the checked-in tree).  Categories are decided in the priority order the
frontend reads them (`getDignityLabel`, `unnamed/part_001`): domicile,
exaltation, detriment (sign opposite domicile), fall (sign opposite
exaltation), with peregrine as the default; scores are the fixed values
+5, +4, −5, −4, 0. -/
def get_planet_dignity (t : RulershipTable) (p : Planet) (s : Sign) : Dignity :=
  if domicileRuler t s = p then
    ⟨true, false, false, false, false, 5⟩
  else if exaltedPlanet s = some p then
    ⟨false, true, false, false, false, 4⟩
  else if domicileRuler t s.opposite = p then
    ⟨false, false, true, false, false, -5⟩
  else if exaltedPlanet s.opposite = some p then
    ⟨false, false, false, true, false, -4⟩
  else
    ⟨false, false, false, false, true, 0⟩

/-- Number of category flags set in a `Dignity` record. -/
def Dignity.flagCount (d : Dignity) : ℕ :=
  (if d.domicile then 1 else 0) + (if d.exaltation then 1 else 0) +
  (if d.detriment then 1 else 0) + (if d.fall then 1 else 0) +
  (if d.peregrine then 1 else 0)

/-- The fixed score of the category a `Dignity` record flags, in the
priority order of `getDignityLabel`: +5, +4, −5, −4, 0. -/
def Dignity.categoryScore (d : Dignity) : Int :=
  if d.domicile then 5
  else if d.exaltation then 4
  else if d.detriment then -5
  else if d.fall then -4
  else 0

/-- C2: for every rulership table and every (planet, sign) pair, the
dignity evaluation sets exactly one of the five category flags, and the
score equals the fixed value of that category (+5 domicile, +4
exaltation, −5 detriment, −4 fall, 0 peregrine). -/
theorem dignity_exactly_one_category :
    ∀ (t : RulershipTable) (p : Planet) (s : Sign),
      (get_planet_dignity t p s).flagCount = 1 ∧
      (get_planet_dignity t p s).score =
        (get_planet_dignity t p s).categoryScore := by
  decide

/-! ## Solar conditions (combustion / cazimi / under the beams)

The engine module (`abu_engine/core/solar_conditions.py`,
"Cazimi (< 17'), Combustión (< 8°), Bajo rayos (< 17°)",
`get_solar_condition()`) is not in the checked-in tree; the classifier
is modelled from the spec over the shortest-arc distance `circDist`. -/

/-- The categorical solar-condition states
(`planet.solar_condition.state`). -/
inductive SolarState where
  | cazimi | combust | underBeams | none
  deriving DecidableEq, Repr

/-- Modelled from the spec: classify a planet-vs-Sun circular angular
distance `d` (spec §4.7: cazimi if `d < 17/60°`, combust if
`17/60° ≤ d < 8°`, under-the-beams if `8° ≤ d < 17°`, else none);
`abu_engine/core/solar_conditions.py` is not in the checked-in tree. -/
def classifySolar (d : ℚ) : SolarState :=
  if d < 17/60 then .cazimi
  else if d < 8 then .combust
  else if d < 17 then .underBeams
  else .none

/-- Modelled from the spec: `get_solar_condition` returns the state
together with the distance (`{ state, distance_deg }` in the documented
JSON shape). -/
def get_solar_condition (planetLon sunLon : ℚ) : SolarState × ℚ :=
  (classifySolar (circDist planetLon sunLon), circDist planetLon sunLon)

theorem classifySolar_spec (d : ℚ) :
    (classifySolar d = .cazimi ↔ d < 17/60) ∧
    (classifySolar d = .combust ↔ 17/60 ≤ d ∧ d < 8) ∧
    (classifySolar d = .underBeams ↔ 8 ≤ d ∧ d < 17) ∧
    (classifySolar d = .none ↔ 17 ≤ d) := by
  unfold classifySolar
  split_ifs with h1 h2 h3 <;>
    refine ⟨?_, ?_, ?_, ?_⟩ <;> simp <;>
    first
      | linarith
      | (intro h; linarith)
      | (constructor <;> linarith)

/-- C3: with `d` the shortest-arc circular distance (at most 180°)
between a planet and the Sun, the solar condition is cazimi iff
`d < 17/60°`, combust iff `17/60° ≤ d < 8°`, under-the-beams iff
`8° ≤ d < 17°`, none iff `17° ≤ d`, and the reported distance is `d`;
in particular, a planet within 8° of the Sun but not within 17
arcminutes is reported combust. -/
theorem solar_condition_classification (p s : ℚ) :
    (get_solar_condition p s).2 = circDist p s ∧
    ((get_solar_condition p s).1 = SolarState.cazimi ↔
      circDist p s < 17/60) ∧
    ((get_solar_condition p s).1 = SolarState.combust ↔
      17/60 ≤ circDist p s ∧ circDist p s < 8) ∧
    ((get_solar_condition p s).1 = SolarState.underBeams ↔
      8 ≤ circDist p s ∧ circDist p s < 17) ∧
    ((get_solar_condition p s).1 = SolarState.none ↔
      17 ≤ circDist p s) :=
  ⟨rfl, classifySolar_spec (circDist p s)⟩

/-! ## House partition and planet-to-house assignment

House cusps are handled relative to the Ascendant, as the spec's
invariant states them ("cusps must be monotonically increasing when
unwrapped around the circle starting from ASC"): `d i` is the unwrapped
offset of cusp `i+1` from the ASC, so `d 0 = 0` and a valid (non-polar)
chart has `d` strictly increasing with `d 11 < 360`.  House `i`'s
half-open interval is `[d i, d (i+1))`, the last one wrapping back to
the ASC (`[d 11, 360)`).  The assignment procedure itself
(`assign_house` of `abu_engine/core/houses_swiss.py`) is not in the
checked-in tree and is modelled from the spec; the interval/wraparound
shape matches the house-ring sectors of `ChartWheel.tsx`. -/

/-- Upper end of house `i`'s half-open interval: the next cusp offset,
or `360` for house 12 (wraparound back to house 1 at the ASC). -/
def cuspEnd (d : Fin 12 → ℚ) (i : Fin 12) : ℚ :=
  if h : (i : ℕ) + 1 < 12 then d ⟨(i : ℕ) + 1, h⟩ else 360

/-- Longitude-offset `x` falls in house `i`'s half-open interval
`[d i, cuspEnd d i)`. -/
def inHouse (d : Fin 12 → ℚ) (i : Fin 12) (x : ℚ) : Prop :=
  d i ≤ x ∧ x < cuspEnd d i

/-- Boolean test for `inHouse`. -/
def inHouseB (d : Fin 12 → ℚ) (i : Fin 12) (x : ℚ) : Bool :=
  decide (d i ≤ x) && decide (x < cuspEnd d i)

theorem inHouseB_iff (d : Fin 12 → ℚ) (i : Fin 12) (x : ℚ) :
    inHouseB d i x = true ↔ inHouse d i x := by
  simp [inHouseB, inHouse]

/-- Modelled from the spec:
`assign_house(longitude, cusp_block) -> house_number` (spec §4.5), as
the first house whose half-open circular interval contains the
longitude offset. -/
def assignHouse (d : Fin 12 → ℚ) (x : ℚ) : Option (Fin 12) :=
  (List.finRange 12).find? (fun i => inHouseB d i x)

theorem inHouse_disjoint_aux (d : Fin 12 → ℚ) (hmono : StrictMono d)
    {x : ℚ} {j k : Fin 12} (hjk : j < k)
    (hj : inHouse d j x) (hk : inHouse d k x) : False := by
  have hval : (j : ℕ) < (k : ℕ) := hjk
  have h1 : (j : ℕ) + 1 < 12 := by omega
  have hle : d ⟨(j : ℕ) + 1, h1⟩ ≤ d k := by
    apply hmono.monotone
    rw [Fin.le_def]
    simpa using hval
  have hend : cuspEnd d j = d ⟨(j : ℕ) + 1, h1⟩ := by
    unfold cuspEnd
    rw [dif_pos h1]
  have h2 := hj.2
  rw [hend] at h2
  have h3 := hk.1
  linarith

theorem inHouse_unique (d : Fin 12 → ℚ) (hmono : StrictMono d)
    {x : ℚ} {j k : Fin 12} (hj : inHouse d j x) (hk : inHouse d k x) :
    j = k := by
  rcases lt_trichotomy j k with h | h | h
  · exact absurd (inHouse_disjoint_aux d hmono h hj hk) (by simp)
  · exact h
  · exact absurd (inHouse_disjoint_aux d hmono h hk hj) (by simp)

theorem inHouse_exists (d : Fin 12 → ℚ) (x : ℚ)
    (h0 : d 0 = 0) (hx0 : 0 ≤ x) (hx1 : x < 360) :
    ∃ i, inHouse d i x := by
  classical
  set S : Finset (Fin 12) := Finset.univ.filter (fun i => d i ≤ x) with hS
  have h0S : (0 : Fin 12) ∈ S := by
    simp only [hS, Finset.mem_filter, Finset.mem_univ, true_and, h0]
    exact hx0
  have hne : S.Nonempty := ⟨0, h0S⟩
  refine ⟨S.max' hne, ?_, ?_⟩
  · have hiS := S.max'_mem hne
    simpa only [hS, Finset.mem_filter, Finset.mem_univ, true_and] using hiS
  · by_cases h : ((S.max' hne : Fin 12) : ℕ) + 1 < 12
    · have hnotin : (⟨((S.max' hne : Fin 12) : ℕ) + 1, h⟩ : Fin 12) ∉ S := by
        intro hmem
        have hle := S.le_max' _ hmem
        rw [Fin.le_def] at hle
        simp at hle
      have hgt : ¬ d ⟨((S.max' hne : Fin 12) : ℕ) + 1, h⟩ ≤ x := by
        intro hcon
        exact hnotin (by
          simp only [hS, Finset.mem_filter, Finset.mem_univ, true_and]
          exact hcon)
      unfold cuspEnd
      rw [dif_pos h]
      linarith
    · unfold cuspEnd
      rw [dif_neg h]
      exact hx1

/-- C4: for a valid (non-polar) chart — cusp offsets from the ASC
strictly increasing, starting at 0 and staying below 360 — every
longitude offset in `[0, 360)` lies in exactly one of the 12 half-open
house intervals (the intervals partition the circle with no gaps or
overlaps, house 12 wrapping back to house 1), and the house-assignment
procedure assigns it that unique house. -/
theorem house_partition (d : Fin 12 → ℚ) (x : ℚ)
    (h0 : d 0 = 0) (hmono : StrictMono d) (hlast : d 11 < 360)
    (hx0 : 0 ≤ x) (hx1 : x < 360) :
    ∃ i : Fin 12, assignHouse d x = some i ∧ inHouse d i x ∧
      ∀ j : Fin 12, inHouse d j x → j = i := by
  obtain ⟨i0, hi0⟩ := inHouse_exists d x h0 hx0 hx1
  have hsome : ((List.finRange 12).find? (fun i => inHouseB d i x)).isSome := by
    rw [List.find?_isSome]
    exact ⟨i0, List.mem_finRange i0, (inHouseB_iff d i0 x).mpr hi0⟩
  obtain ⟨i, hfind⟩ := Option.isSome_iff_exists.mp hsome
  have hb : inHouseB d i x = true :=
    @List.find?_some (Fin 12) (fun i => inHouseB d i x) i (List.finRange 12) hfind
  have hpi : inHouse d i x := (inHouseB_iff d i x).mp hb
  exact ⟨i, hfind, hpi, fun j hj => inHouse_unique d hmono hj hpi⟩

/-- Example cusp offsets for the witness: equal 30° houses. -/
def equalCusps : Fin 12 → ℚ := fun i => 30 * (i : ℕ)

/-- Witness for `house_partition` at the concrete chart `equalCusps`
and longitude offset 45. -/
theorem house_partition_witness :
    ∃ i : Fin 12, assignHouse equalCusps 45 = some i ∧
      inHouse equalCusps i 45 ∧
      ∀ j : Fin 12, inHouse equalCusps j 45 → j = i :=
  house_partition equalCusps 45 (by norm_num [equalCusps])
    (by
      intro a b hab
      have : (a : ℕ) < (b : ℕ) := hab
      simp only [equalCusps]
      have h30 : (0:ℚ) < 30 := by norm_num
      exact mul_lt_mul_of_pos_left (by exact_mod_cast this) h30)
    (by norm_num [equalCusps, show ((11 : Fin 12) : ℕ) = 11 from rfl])
    (by norm_num) (by norm_num)

/-! ## Solar-return search

The Solar Return Solver (`abu_engine/core/solar_return.py`,
"Búsqueda binaria del momento exacto") is not in the checked-in tree;
the search is modelled from the spec (§4.9): bisection over a bracket
around the anniversary date against the signed Sun-longitude difference,
narrowing until the circular distance to the natal Sun longitude drops
below 0.001°, with a fixed cap of 20 iterations, and an explicit
`ConvergenceError` when the cap is exhausted.  The tolerance and the
iteration cap are the explicit constants the documentation states
(`Solar_Return_API.md`: "within 0.001°", "Binary search with 20
iterations"). -/

/-- Convergence tolerance of the solar-return search: 0.001°. -/
def solarEps : ℚ := 1 / 1000

/-- Fixed iteration cap of the solar-return bisection. -/
def maxIterations : ℕ := 20

/-- Signed circular difference between two longitudes, in
`(-180, 180]`. -/
def signedDelta (a b : ℚ) : ℚ :=
  if normalize360 (a - b) ≤ 180 then normalize360 (a - b)
  else normalize360 (a - b) - 360

theorem abs_signedDelta (a b : ℚ) : |signedDelta a b| = circDist a b := by
  have h0 := normalize360_nonneg (a - b)
  have h1 := normalize360_lt (a - b)
  unfold signedDelta circDist
  split_ifs with h
  · rw [abs_of_nonneg h0]
    rw [min_eq_left (by linarith)]
  · rw [abs_of_nonpos (by linarith)]
    rw [min_eq_right (by linarith)]
    ring

/-- Modelled from the spec: fuelled bisection loop of the Solar Return
Solver (§4.9).  Succeeds with the midpoint as soon as the convergence
test passes, otherwise narrows to the half of the bracket whose endpoint
signs still bracket the root; exhausting the fuel is a
`ConvergenceError`, never a silently-approximate result. -/
def bisect (f : ℚ → ℚ) : ℕ → ℚ → ℚ → Except String ℚ
  | 0, _, _ => .error "ConvergenceError"
  | n + 1, lo, hi =>
    if |f ((lo + hi) / 2)| < solarEps then .ok ((lo + hi) / 2)
    else if f ((lo + hi) / 2) < 0 then bisect f n ((lo + hi) / 2) hi
    else bisect f n lo ((lo + hi) / 2)

theorem bisect_ok (f : ℚ → ℚ) :
    ∀ (n : ℕ) (lo hi t : ℚ), bisect f n lo hi = .ok t → |f t| < solarEps := by
  intro n
  induction n with
  | zero => intro lo hi t h; simp [bisect] at h
  | succ n ih =>
    intro lo hi t h
    rw [bisect] at h
    split_ifs at h with h1 h2
    · cases h
      exact h1
    · exact ih _ _ _ h
    · exact ih _ _ _ h

/-- Modelled from the spec: `calculate_solar_return`'s root search —
bisection of the signed difference between the transiting Sun longitude
and the natal Sun longitude over the given bracket, with the fixed
tolerance and iteration cap. -/
def solarReturnSearch (sunLon : ℚ → ℚ) (natal lo hi : ℚ) : Except String ℚ :=
  bisect (fun t => signedDelta (sunLon t) natal) maxIterations lo hi

/-- C1: whenever the solar-return search returns an instant, the Sun's
ecliptic longitude at that instant matches the natal Sun longitude to
within 0.001° in circular distance; the search is a bisection capped at
a fixed 20 iterations (any non-converged search is an explicit error,
never a returned instant). -/
theorem solar_return_exactness (sunLon : ℚ → ℚ) (natal lo hi t : ℚ)
    (h : solarReturnSearch sunLon natal lo hi = .ok t) :
    circDist (sunLon t) natal < solarEps ∧
      solarEps = 1 / 1000 ∧ maxIterations = 20 := by
  refine ⟨?_, rfl, rfl⟩
  have := bisect_ok (fun t => signedDelta (sunLon t) natal) maxIterations lo hi t h
  rwa [abs_signedDelta] at this

/-- Witness for `solar_return_exactness`: a concrete ephemeris function
(`sunLon = id`), natal longitude 50 and bracket `[45, 55]`, on which the
search converges at the first midpoint. -/
theorem solar_return_exactness_witness :
    circDist ((fun t : ℚ => t) 50) 50 < solarEps ∧
      solarEps = 1 / 1000 ∧ maxIterations = 20 :=
  solar_return_exactness (fun t => t) 50 45 55 50 (by
    have hn : normalize360 (0 : ℚ) = 0 := by
      unfold normalize360
      norm_num
    have hsd : signedDelta (50 : ℚ) 50 = 0 := by
      unfold signedDelta
      rw [show (50 : ℚ) - 50 = 0 by norm_num, hn]
      norm_num
    show bisect (fun t => signedDelta t 50) 20 45 55 = .ok 50
    rw [show (20 : ℕ) = 19 + 1 from rfl, bisect]
    simp only [hsd, show ((45 : ℚ) + 55) / 2 = 50 by norm_num]
    rw [if_pos (show |(0 : ℚ)| < solarEps by norm_num [solarEps])])

/-! ## Shared JSON contract types

Embedded from the shared contract declarations of
`next_app/types/contracts.ts` (checked in as `unnamed/part_002`) and the
ranking types (`unnamed/part_003`).  Each structure mirrors one
TypeScript interface; for each interface relevant to the shape claims,
the ordered list of its field names is embedded alongside. -/

namespace Contracts

/-- `Location` of `contracts.ts`. -/
structure Location where
  lat : ℚ
  lon : ℚ
  deriving DecidableEq, Repr

/-- `Person` of `contracts.ts`. -/
structure Person where
  name : Option String
  question : Option String
  deriving DecidableEq, Repr

/-- `Planet` of `contracts.ts`: one chart planet entry. -/
structure Planet where
  name : String
  longitude : ℚ
  sign : String
  degree_in_sign : ℚ
  formatted : String
  dignity : Dignity
  house : Option ℚ
  deriving DecidableEq, Repr

/-- `House` of `contracts.ts`: one house interval entry. -/
structure House where
  house : ℚ
  start : ℚ
  end_ : ℚ
  deriving DecidableEq, Repr

/-- `HousesBlock` of `contracts.ts`. -/
structure HousesBlock where
  houses : List House
  asc : Option ℚ
  mc : Option ℚ
  deriving DecidableEq, Repr

/-- `Aspect` of `contracts.ts` (the lunar-transit aspect entry). -/
structure Aspect where
  planet : String
  type : String
  orb : ℚ
  deriving DecidableEq, Repr

/-- `LunarTransit` of `contracts.ts`. -/
structure LunarTransit where
  moon_position : Option ℚ
  aspects : List Aspect
  deriving DecidableEq, Repr

/-- `FirdariaCurrent` of `contracts.ts`. -/
structure FirdariaCurrent where
  major : String
  sub : String
  start : String
  end_ : String
  deriving DecidableEq, Repr

/-- `Derived` of `contracts.ts`. -/
structure Derived where
  sect : Option String
  firdaria : Option FirdariaCurrent
  profection : Option ℚ
  lunar_transit : LunarTransit
  deriving DecidableEq, Repr

/-- `LifeCycleEvent` of `contracts.ts`. -/
structure LifeCycleEvent where
  cycle : String
  planet : String
  angle : ℚ
  approx : String
  deriving DecidableEq, Repr

/-- `LifeCycles` of `contracts.ts`. -/
structure LifeCycles where
  events : List LifeCycleEvent
  deriving DecidableEq, Repr

/-- `ForecastPoint` of `contracts.ts`. -/
structure ForecastPoint where
  t : String
  F : ℚ
  deriving DecidableEq, Repr

/-- `Peak` of `contracts.ts`. -/
structure Peak where
  t : String
  F : ℚ
  kind : String
  deriving DecidableEq, Repr

/-- `Forecast` of `contracts.ts`. -/
structure Forecast where
  timeseries : List ForecastPoint
  peaks : List Peak
  deriving DecidableEq, Repr

/-- The `X | { error: string }` union shape of `contracts.ts`
(`LifeCyclesOrError`, `ForecastOrError`). -/
inductive OrError (α : Type) where
  | ok (value : α)
  | error (error : String)
  deriving DecidableEq, Repr

/-- The `chart` block of `AnalyzeResponse` in `contracts.ts`:
planets plus houses (and nothing else). -/
structure AnalyzeChart where
  planets : List Planet
  houses : HousesBlock
  deriving DecidableEq, Repr

/-- `AnalyzeResponse` of `contracts.ts`. -/
structure AnalyzeResponse where
  person : Person
  chart : AnalyzeChart
  derived : Derived
  life_cycles : Option (OrError LifeCycles)
  forecast : Option (OrError Forecast)
  question : String
  deriving DecidableEq, Repr

/-- `SolarReturnPlanet` of `contracts.ts`. -/
structure SolarReturnPlanet where
  name : String
  lon : ℚ
  sign : String
  house : Option ℚ
  deriving DecidableEq, Repr

/-- `SolarReturnAspect` of `contracts.ts`. -/
structure SolarReturnAspect where
  a : String
  b : String
  type : String
  orb : ℚ
  angle : ℚ
  deriving DecidableEq, Repr

/-- `ScoreSummary` of `contracts.ts`. -/
structure ScoreSummary where
  total_score : ℚ
  num_aspects : ℚ
  interpretation : String
  deriving DecidableEq, Repr

/-- `SolarReturnResponse` of `contracts.ts`. -/
structure SolarReturnResponse where
  solar_return_datetime : String
  birth_date : String
  location : Location
  year : ℚ
  planets : List SolarReturnPlanet
  aspects : List SolarReturnAspect
  score_summary : ScoreSummary
  deriving DecidableEq, Repr

/-- Field names of the `Planet` interface, in declaration order. -/
def planetFields : List String :=
  ["name", "longitude", "sign", "degree_in_sign", "formatted",
   "dignity", "house"]

/-- Field names of the `Dignity` interface, in declaration order. -/
def dignityFields : List String :=
  ["domicile", "exaltation", "detriment", "fall", "peregrine", "score"]

/-- Field names of the `House` interface, in declaration order. -/
def houseFields : List String := ["house", "start", "end"]

/-- Field names of the `HousesBlock` interface, in declaration order. -/
def housesBlockFields : List String := ["houses", "asc", "mc"]

/-- Field names of the `chart` block of `AnalyzeResponse`, in
declaration order. -/
def analyzeChartFields : List String := ["planets", "houses"]

/-- Field names of the `AnalyzeResponse` interface, in declaration
order. -/
def analyzeResponseFields : List String :=
  ["person", "chart", "derived", "life_cycles", "forecast", "question"]

/-- Field names of the `SolarReturnAspect` interface, in declaration
order. -/
def solarReturnAspectFields : List String :=
  ["a", "b", "type", "orb", "angle"]

/-- Field names of the `SolarReturnResponse` interface, in declaration
order. -/
def solarReturnResponseFields : List String :=
  ["solar_return_datetime", "birth_date", "location", "year",
   "planets", "aspects", "score_summary"]

end Contracts

/-! ## Per-block composition of the /analyze aggregate response

The endpoint body (`abu_engine/main.py`) is not in the checked-in tree;
its per-block error policy is modelled from the spec and the
documented flow (`Interpret_Flow.md`, "Error handling per block": if a
block fails it returns an error object for that block and continues with
the others).  A fallible block computation is an
`Except String` value; the composition places each block's outcome in
its own slot, independently of every other block. -/

/-- Embed one block's outcome into its response slot: a success is the
value, a failure is the `{ error: ... }` object of that slot. -/
def toOrError {α : Type} : Except String α → Contracts.OrError α
  | .ok v => .ok v
  | .error e => .error e

/-- Modelled from the spec: the per-block assembly of the POST /analyze
aggregate response (spec §7 propagation policy; `Interpret_Flow.md`
"Error handling per block").  Each optional block's outcome lands in its
own slot; no block's outcome influences a sibling slot. -/
def composeAnalyze (person : Contracts.Person) (chart : Contracts.AnalyzeChart)
    (derived : Contracts.Derived) (life : Except String Contracts.LifeCycles)
    (fore : Except String Contracts.Forecast) (question : String) :
    Contracts.AnalyzeResponse :=
  { person := person
    chart := chart
    derived := derived
    life_cycles := some (toOrError life)
    forecast := some (toOrError fore)
    question := question }

/-- C6: a failure in one computed block of the /analyze aggregate is
isolated to that block — the failing block's slot holds the error
object while the chart, derived and the other optional block are still
the independently-computed values, in the same response; symmetrically
for the other optional block. -/
theorem analyze_block_error_isolation (p : Contracts.Person)
    (c : Contracts.AnalyzeChart) (d : Contracts.Derived)
    (life : Except String Contracts.LifeCycles)
    (fore : Except String Contracts.Forecast) (e q : String) :
    ((composeAnalyze p c d life (.error e) q).forecast = some (.error e) ∧
     (composeAnalyze p c d life (.error e) q).chart = c ∧
     (composeAnalyze p c d life (.error e) q).derived = d ∧
     (composeAnalyze p c d life (.error e) q).life_cycles =
       some (toOrError life)) ∧
    ((composeAnalyze p c d (.error e) fore q).life_cycles =
       some (.error e) ∧
     (composeAnalyze p c d (.error e) fore q).chart = c ∧
     (composeAnalyze p c d (.error e) fore q).derived = d ∧
     (composeAnalyze p c d (.error e) fore q).forecast =
       some (toOrError fore)) :=
  ⟨⟨rfl, rfl, rfl, rfl⟩, ⟨rfl, rfl, rfl, rfl⟩⟩

/-! ## C7: the chart-output / aspects contract shape -/

/-- C7 counterexample: the chart block delivered by the aggregate
contract (`AnalyzeResponse.chart` of `contracts.ts`, matching the
documented /analyze response contract) carries only the planets list
and the houses block — it has no `aspects` slot at all, so the claimed
shape (aspects alongside planets and houses in the chart output) fails
on the declared contract. -/
theorem analyze_chart_has_no_aspects_field :
    Contracts.analyzeChartFields.contains "aspects" = false ∧
    Contracts.analyzeChartFields = ["planets", "houses"] := by
  decide

/-- C7 (amended): the chart block of the aggregate response carries the
planets list (entries with name, longitude, sign, degree_in_sign,
formatted, dignity, house) and the houses block
(houses[{house,start,end}], asc, mc) but no aspects list; the aspects
list whose entries have exactly the fields a, b, type, orb and angle is
delivered to external callers in the solar-return response, alongside
its own planets list. -/
theorem chart_and_aspect_contract_fields :
    Contracts.planetFields =
      ["name", "longitude", "sign", "degree_in_sign", "formatted",
       "dignity", "house"] ∧
    Contracts.dignityFields =
      ["domicile", "exaltation", "detriment", "fall", "peregrine",
       "score"] ∧
    Contracts.housesBlockFields = ["houses", "asc", "mc"] ∧
    Contracts.houseFields = ["house", "start", "end"] ∧
    Contracts.analyzeChartFields = ["planets", "houses"] ∧
    Contracts.solarReturnAspectFields = ["a", "b", "type", "orb", "angle"] ∧
    Contracts.solarReturnResponseFields.contains "aspects" = true ∧
    Contracts.solarReturnResponseFields.contains "planets" = true := by
  decide

/-! ## C8: the multi-city ranking response shape

The ranking endpoint implementation
(`GET /api/astro/solar-return/ranking`, abu_engine) is not in the
checked-in tree; its response schema is modelled from the spec (§6
Ranking contract) and the documented response example of the ranking
API.  The frontend's own (narrower) declaration from
`unnamed/part_003` is embedded alongside for cross-checking. -/

/-- Modelled from the spec: field names of one `rankings` entry of the
ranking response (spec §6; the documented engine response example). -/
def cityRankingFields : List String :=
  ["city", "coordinates", "region", "total_score", "breakdown",
   "chart_summary"]

/-- Modelled from the spec: field names of the `breakdown` object of a
rankings entry — the five weighted sub-scores (spec §4.10, §6). -/
def rankingBreakdownFields : List String :=
  ["dignities", "angularity", "solar_conditions", "aspects_reception",
   "sect"]

/-- Modelled from the spec: field names of the `chart_summary` object of
a rankings entry (spec §6). -/
def rankingChartSummaryFields : List String :=
  ["asc_sign", "mc_sign", "solar_return_datetime"]

/-- Modelled from the spec: top-level field names of the ranking
response (spec §6). -/
def rankingResponseFields : List String :=
  ["top_recommendations", "rankings", "criteria", "cities_analyzed",
   "year"]

/-- Field names of the frontend's `CityRanking` interface
(`unnamed/part_003`), in declaration order — it omits `region`. -/
def tsCityRankingFields : List String :=
  ["city", "coordinates", "total_score", "breakdown", "chart_summary"]

/-- Field names of the frontend's `RankingBreakdown` interface
(`unnamed/part_003`), in declaration order. -/
def tsRankingBreakdownFields : List String :=
  ["dignities", "angularity", "solar_conditions", "aspects_reception",
   "sect"]

/-- Field names of the frontend's `RankingResponse` interface
(`unnamed/part_003`), in declaration order. -/
def tsRankingResponseFields : List String :=
  ["top_recommendations", "rankings", "criteria", "cities_analyzed",
   "year"]

/-- C8: every rankings entry of the ranking response carries city,
coordinates, region, total_score, a breakdown of exactly the five
sub-scores (dignities, angularity, solar_conditions, aspects_reception,
sect) and a chart_summary of asc_sign, mc_sign and
solar_return_datetime; the top level carries top_recommendations,
rankings, criteria, cities_analyzed and year.  The engine schema agrees
with the frontend's declared interfaces, which merely omit the entry's
`region` field. -/
theorem ranking_response_shape :
    cityRankingFields =
      ["city", "coordinates", "region", "total_score", "breakdown",
       "chart_summary"] ∧
    rankingBreakdownFields =
      ["dignities", "angularity", "solar_conditions",
       "aspects_reception", "sect"] ∧
    rankingChartSummaryFields =
      ["asc_sign", "mc_sign", "solar_return_datetime"] ∧
    rankingResponseFields =
      ["top_recommendations", "rankings", "criteria", "cities_analyzed",
       "year"] ∧
    cityRankingFields.filter (fun f => !(f == "region")) =
      tsCityRankingFields ∧
    rankingBreakdownFields = tsRankingBreakdownFields ∧
    rankingResponseFields = tsRankingResponseFields := by
  decide

/-! ## C9: the Part of Fortune -/

/-- Modelled from the spec: the Part of Fortune of
`abu_engine/core/lots.py` ("Parte de Fortuna (diurna/nocturna)"), which
is not in the checked-in tree.  Spec §4.7: diurnal formula
`ASC + Moon_lon - Sun_lon (mod 360)`, nocturnal formula
`ASC + Sun_lon - Moon_lon (mod 360)`; requires a real Ascendant and
must fail explicitly when none is available, never assuming
`ASC = 0`. -/
def part_of_fortune (diurnal : Bool) (asc : Option ℚ)
    (moonLon sunLon : ℚ) : Except String ℚ :=
  match asc with
  | Option.none => .error "Ascendant unavailable"
  | Option.some a =>
      if diurnal then .ok (normalize360 (a + moonLon - sunLon))
      else .ok (normalize360 (a + sunLon - moonLon))

/-- C9: with a real Ascendant the Part of Fortune is
`ASC + Moon − Sun (mod 360)` for a diurnal chart and
`ASC + Sun − Moon (mod 360)` for a nocturnal chart; without one, the
lot computation fails explicitly (for either sect), and in particular
never yields a longitude computed from an assumed `ASC = 0`. -/
theorem part_of_fortune_spec (a moonLon sunLon : ℚ) :
    part_of_fortune true (some a) moonLon sunLon =
      .ok (normalize360 (a + moonLon - sunLon)) ∧
    part_of_fortune false (some a) moonLon sunLon =
      .ok (normalize360 (a + sunLon - moonLon)) ∧
    ∀ d : Bool, part_of_fortune d Option.none moonLon sunLon =
      .error "Ascendant unavailable" :=
  ⟨rfl, rfl, fun _ => rfl⟩

/-! ## Frontend Abu client wrapper (`next_app/clients/abu.ts`)

Shallow embedding of `fetchAbu` and the functions built on it.  A
`fetch` call either rejects (network failure) or resolves with an HTTP
response whose `ok` is `200 ≤ status < 300` and whose body either
parses to JSON (of which the wrapper inspects only the optional string
field `detail`) or fails to parse.  `AbuApiError` is embedded as the
error constructor carrying message and status. -/

namespace AbuClient

/-- A parsed JSON body; the wrapper reads only its optional `detail`
string. -/
structure JsonBody where
  detail : Option String
  deriving Repr

/-- An HTTP response as the wrapper observes it: the status code, and
the outcome of `response.json()` (parsed body, or the parse-failure
message). -/
structure HttpResponse where
  status : ℕ
  body : Except String JsonBody
  deriving Repr

/-- Outcome of the underlying `fetch` call: a response, or a rejection
(network failure) with its message. -/
inductive FetchOutcome where
  | response (r : HttpResponse)
  | networkFailure (msg : String)
  deriving Repr

/-- Result of the wrapper: a resolved body, or an `AbuApiError`
carrying message and status. -/
inductive AbuResult where
  | ok (body : JsonBody)
  | abuApiError (message : String) (status : ℕ)
  deriving Repr

/-- The non-2xx error message: the error body's `detail` when present
and non-empty (the source uses `errorBody.detail || default`, and an
unparseable error body is replaced by the empty object), else
`"Abu API error: <status>"`. -/
def errorMessage : Except String JsonBody → ℕ → String
  | .ok j, status =>
      match j.detail with
      | Option.some m =>
          if m = "" then "Abu API error: " ++ toString status else m
      | Option.none => "Abu API error: " ++ toString status
  | .error _, status => "Abu API error: " ++ toString status

/-- The 2xx path of the wrapper: `return await response.json()` — a
parse failure there escapes to the outer catch, which converts any
non-`AbuApiError` into an `AbuApiError` with status 0. -/
def okBody : Except String JsonBody → AbuResult
  | .ok j => .ok j
  | .error msg => .abuApiError ("Network error: " ++ msg) 0

/-- `fetchAbu` of `next_app/clients/abu.ts`: on a non-2xx response it
throws an `AbuApiError` with the response's status (message from the
error body's `detail` when available); a rejected fetch or a failed
body parse of a 2xx response is converted to an `AbuApiError` with
status 0; a 2xx response with a parseable body resolves.  The endpoint
only selects the URL and plays no part in the error logic. -/
def fetchAbu (_endpoint : String) : FetchOutcome → AbuResult
  | .networkFailure msg => .abuApiError ("Network error: " ++ msg) 0
  | .response r =>
      if 200 ≤ r.status ∧ r.status < 300 then okBody r.body
      else .abuApiError (errorMessage r.body r.status) r.status

/-- `analyze` of `abu.ts`: POST /analyze through `fetchAbu`. -/
def analyze (outcome : FetchOutcome) : AbuResult :=
  fetchAbu "/analyze" outcome

/-- `interpret` of `abu.ts`: POST /api/astro/interpret through
`fetchAbu`. -/
def interpret (outcome : FetchOutcome) : AbuResult :=
  fetchAbu "/api/astro/interpret" outcome

/-- `getSolarReturn` of `abu.ts`: GET /api/astro/solar-return with its
query parameters through `fetchAbu`. -/
def getSolarReturn (params : String) (outcome : FetchOutcome) : AbuResult :=
  fetchAbu ("/api/astro/solar-return?" ++ params) outcome

/-- `getChart` of `abu.ts`: GET /api/astro/chart with its query
parameters through `fetchAbu`. -/
def getChart (params : String) (outcome : FetchOutcome) : AbuResult :=
  fetchAbu ("/api/astro/chart?" ++ params) outcome

/-- `searchCities` of `abu.ts`: GET /api/cities/search through
`fetchAbu`. -/
def searchCities (query : String) (outcome : FetchOutcome) : AbuResult :=
  fetchAbu ("/api/cities/search?q=" ++ query) outcome

/-- `healthCheck` of `abu.ts`: GET /health through `fetchAbu` (with no
added error handling of its own). -/
def healthCheck (outcome : FetchOutcome) : AbuResult :=
  fetchAbu "/health" outcome

end AbuClient

/-- C10: through the client wrapper (`fetchAbu` and every function
built on it), a non-2xx HTTP response always yields an `AbuApiError`
carrying that response's status, with the error body's `detail` as
message when present (and non-empty); a network failure, or a body
parse failure of a successful response, yields an `AbuApiError` with
status 0; the wrapper resolves successfully only on a 2xx response.
Each exported function delegates to `fetchAbu` on its endpoint. -/
theorem fetchAbu_error_contract (endpoint : String)
    (outcome : AbuClient.FetchOutcome) :
    (∀ r : AbuClient.HttpResponse, outcome = .response r →
      ¬(200 ≤ r.status ∧ r.status < 300) →
      AbuClient.fetchAbu endpoint outcome =
        .abuApiError (AbuClient.errorMessage r.body r.status) r.status ∧
      (∀ j m, r.body = .ok j → j.detail = Option.some m → m ≠ "" →
        AbuClient.errorMessage r.body r.status = m)) ∧
    (∀ msg, outcome = .networkFailure msg →
      AbuClient.fetchAbu endpoint outcome =
        .abuApiError ("Network error: " ++ msg) 0) ∧
    (∀ r msg, outcome = .response r → 200 ≤ r.status → r.status < 300 →
      r.body = .error msg →
      AbuClient.fetchAbu endpoint outcome =
        .abuApiError ("Network error: " ++ msg) 0) ∧
    (∀ r j, outcome = .response r →
      AbuClient.fetchAbu endpoint outcome = .ok j →
      200 ≤ r.status ∧ r.status < 300 ∧ r.body = .ok j) ∧
    (AbuClient.analyze outcome = AbuClient.fetchAbu "/analyze" outcome ∧
     AbuClient.interpret outcome =
       AbuClient.fetchAbu "/api/astro/interpret" outcome ∧
     (∀ ps, AbuClient.getSolarReturn ps outcome =
       AbuClient.fetchAbu ("/api/astro/solar-return?" ++ ps) outcome) ∧
     (∀ ps, AbuClient.getChart ps outcome =
       AbuClient.fetchAbu ("/api/astro/chart?" ++ ps) outcome) ∧
     (∀ q, AbuClient.searchCities q outcome =
       AbuClient.fetchAbu ("/api/cities/search?q=" ++ q) outcome) ∧
     AbuClient.healthCheck outcome =
       AbuClient.fetchAbu "/health" outcome) := by
  refine ⟨?_, ?_, ?_, ?_, rfl, rfl, fun _ => rfl, fun _ => rfl,
    fun _ => rfl, rfl⟩
  · rintro r rfl hnot
    constructor
    · simp only [AbuClient.fetchAbu]
      rw [if_neg hnot]
    · intro j m hb hd hne
      rw [hb]
      simp only [AbuClient.errorMessage]
      rw [hd]
      exact if_neg hne
  · rintro msg rfl
    rfl
  · rintro r msg rfl h1 h2 hbody
    simp only [AbuClient.fetchAbu]
    rw [if_pos ⟨h1, h2⟩, hbody]
    rfl
  · rintro r j rfl hok
    simp only [AbuClient.fetchAbu] at hok
    by_cases h : 200 ≤ r.status ∧ r.status < 300
    · rw [if_pos h] at hok
      refine ⟨h.1, h.2, ?_⟩
      cases hb : r.body with
      | ok j' =>
          rw [hb] at hok
          simp only [AbuClient.okBody] at hok
          cases hok
          rfl
      | error m =>
          rw [hb] at hok
          simp only [AbuClient.okBody] at hok
          cases hok
    · rw [if_neg h] at hok
      cases hok

/-- Witness for `fetchAbu_error_contract`: a concrete 404 response whose
error body carries `detail = "boom"`, and a concrete network failure;
the wrapper yields `AbuApiError "boom" 404` and
`AbuApiError ("Network error: down") 0` respectively. -/
theorem fetchAbu_error_contract_witness :
    AbuClient.fetchAbu "/analyze"
        (.response ⟨404, .ok ⟨Option.some "boom"⟩⟩) =
      .abuApiError "boom" 404 ∧
    AbuClient.fetchAbu "/analyze" (.networkFailure "down") =
      .abuApiError ("Network error: " ++ "down") 0 := by
  constructor
  · have h := (fetchAbu_error_contract "/analyze"
      (.response ⟨404, .ok ⟨Option.some "boom"⟩⟩)).1
      ⟨404, .ok ⟨Option.some "boom"⟩⟩ rfl (by decide)
    have hm := h.2 ⟨Option.some "boom"⟩ "boom" rfl rfl (by decide)
    rw [h.1, hm]
  · exact (fetchAbu_error_contract "/analyze"
      (.networkFailure "down")).2.1 "down" rfl

end AiOracle
